import Mathlib

/- Verification development for pyhail mesh_ppi_new.py (joshuass/PyHail).

The source module computes hail retrievals (KE, SHI, MESH, POSH) from a set
of radar PPI sweeps.  We shallow-embed it as follows:

  * Python floats are modelled as real numbers, numpy 2-D (azimuth, range)
    arrays as total functions on pairs of indices, 1-D arrays as functions
    of one index, and lists as Lean lists.
  * The external collaborators living in the module named common (reached
    through the statement at line 10 of the source, not part of src/) are
    modelled from the spec: the coordinate transform is an arbitrary pure
    function passed as a parameter, and safe_log is the real part of the
    complex logarithm.
  * Fallible code is modelled with an error type whose constructors
    correspond one-to-one to raise sites and to runtime exceptions that
    numpy/Python semantics force at specific source lines.

Two levels are embedded: the per-line field formulas (weighting function,
validity mask, MESH power laws, POSH), and the control flow of main()
(validation order, sorting, the per-sweep loop with its failure point, and
the aliasing of caller-owned reflectivity arrays). -/

/-- A 2-D (azimuth, range) numpy array, modelled as a total real function. -/
abbrev Arr : Type := ℕ → ℕ → ℝ

/-- All-zero array; default element for list lookups. -/
noncomputable def arrZero : Arr := fun _ _ => 0

/-- Error outcomes of main().  Constructors correspond to the raise sites of
mesh_ppi_new.py and to runtime exceptions its statements are guaranteed to
raise:
  * bandValueError — line 61, radar_band not in ["C","S"];
  * levelsValueError — line 64, levels is None;
  * tooFewSweepsError — line 85, at most one sweep;
  * warningRaised — line 87, `raise Warning(...)` for fewer than 10 sweeps
    (raising a Warning instance aborts the call like any exception);
  * dzIndexError — lines 118/120/122: z is the 2-D array returned for the
    current sweep, and `z[i + 1, :, :]` indexes it with three subscripts,
    an IndexError in numpy;
  * integrationTypeError — line 159: `for az_idx, az_value in
    range(azimuth_dataset[0])` applies range() to an ndarray, a TypeError;
  * meshMethodValueError — lines 206-209, unrecognized mesh_method. -/
inductive PyErr : Type
  | bandValueError
  | levelsValueError
  | tooFewSweepsError
  | warningRaised
  | dzIndexError
  | integrationTypeError
  | meshMethodValueError
  deriving DecidableEq

/-- Modelled from the spec: the coordinate-transform collaborator
(common.antenna_to_cartesian, the module common is not part of src/).
Per spec section 6 it is a pure side-effect-free function taking the range,
azimuth and elevation grids and returning Cartesian (x, y, z) grids; the
embedding is parameterized by an arbitrary such function. -/
abbrev Atc : Type := Arr → Arr → Arr → Arr × Arr × Arr

/-- Modelled from the spec: common.safe_log (module common not part of src/),
a natural logarithm tolerant of zero/negative/missing input that never raises
and whose result always yields a real component.  We model it as the real
part of the complex logarithm, which on the reals is Real.log
(Real.log x = Real.log (abs x) for nonzero x, and Real.log 0 = 0). -/
noncomputable def safe_log (x : ℝ) : ℝ := Real.log x

/-- Lines 72-73: np.min over a (nonempty) Python list. -/
noncomputable def npMin (l : List ℝ) : ℝ := l.foldl min (l.headD 0)

/-- Lines 72-73: np.max over a (nonempty) Python list. -/
noncomputable def npMax (l : List ℝ) : ℝ := l.foldl max (l.headD 0)

/-- Line 72: `meltlayer = np.min(levels)`. -/
noncomputable def meltlayerOf (levels : List ℝ) : ℝ := npMin levels

/-- Line 73: `neg20layer = np.max(levels)`. -/
noncomputable def neg20layerOf (levels : List ℝ) : ℝ := npMax levels

/-- Lines 137-141, pointwise: the temperature weighting function.
The source array statements, applied to one element zv, are: start from
(zv - meltlayer) / (neg20layer - meltlayer); set to 0 where zv is at or
below the melt layer; set to 1 where zv is at or above the neg-20 layer;
then clip negatives to 0 and values above 1 to 1, in that order. -/
noncomputable def Wt_fun (meltlayer neg20layer zv : ℝ) : ℝ :=
  let w0 := (zv - meltlayer) / (neg20layer - meltlayer)
  let w1 := if zv ≤ meltlayer then 0 else w0
  let w2 := if zv ≥ neg20layer then 1 else w1
  let w3 := if w2 < 0 then 0 else w2
  if w3 > 1 then 1 else w3

/-- Temperature weight as a function of the raw levels list (lines 72-73
feeding line 137). -/
noncomputable def WtOf (levels : List ℝ) (zv : ℝ) : ℝ :=
  Wt_fun (meltlayerOf levels) (neg20layerOf levels) zv

/-- Line 212: `WT = 57.5 * (meltlayer / 1000) - 121`. -/
noncomputable def warning_threshold (meltlayer : ℝ) : ℝ :=
  57.5 * (meltlayer / 1000) - 121

/-- Lines 215-218, pointwise: POSH.  posh = 29 * safe_log(shi / WT) + 50;
np.real discards the imaginary component (the identity in the real model);
then values below 0 are set to 0 and values above 100 to 100, in that
order. -/
noncomputable def poshOf (shi meltlayer : ℝ) : ℝ :=
  let posh0 := 29 * safe_log (shi / warning_threshold meltlayer) + 50
  let posh1 := if posh0 < 0 then 0 else posh0
  if posh1 > 100 then 100 else posh1

/-- POSH as a function of the raw levels list (line 72 feeding line 212). -/
noncomputable def poshFromLevels (levels : List ℝ) (shi : ℝ) : ℝ :=
  poshOf shi (meltlayerOf levels)

/-- Line 190: `mesh = 2.54 * shi ** 0.5`, pointwise. -/
noncomputable def mesh_witt1998 (shi : ℝ) : ℝ := 2.54 * shi ^ (0.5 : ℝ)

/-- Line 197: `mesh = 15.096 * shi ** 0.206`, pointwise. -/
noncomputable def mesh_mh2019_75 (shi : ℝ) : ℝ := 15.096 * shi ^ (0.206 : ℝ)

/-- Line 203: `mesh = 22.157 * shi ** 0.212`, pointwise. -/
noncomputable def mesh_mh2019_95 (shi : ℝ) : ℝ := 22.157 * shi ^ (0.212 : ℝ)

/-- Lines 186-209: the MESH method dispatch, pointwise on a SHI value.
none models the ValueError of the final else branch. -/
noncomputable def mesh_formula (mesh_method : String) (shi : ℝ) : Option ℝ :=
  if mesh_method = "witt1998" then some (mesh_witt1998 shi)
  else if mesh_method = "mh2019_75" then some (mesh_mh2019_75 shi)
  else if mesh_method = "mh2019_95" then some (mesh_mh2019_95 shi)
  else none

/-- Line 111: `ground_range = np.sqrt(x_dataset[0] ** 2 + y_dataset[0] ** 2)`.
Note the hard-coded index 0: the ground range is always computed from the
lowest sweep's x and y arrays, whatever sweep the loop is processing. -/
noncomputable def ground_range (x_dataset y_dataset : List Arr) : Arr :=
  fun a r =>
    Real.sqrt ((x_dataset.getD 0 arrZero a r) ^ 2 + (y_dataset.getD 0 arrZero a r) ^ 2)

/-- Lines 146-151: the validity mask for the sweep currently being processed,
whose temperature weight array is Wt and kinetic energy array is hail_ke:
(Wt > 0) and (hail_ke > 0) and (ground_range > min_range * 1000) and
(ground_range < max_range * 1000), with ground_range as defined at
line 111 (always from the lowest sweep). -/
noncomputable def validOf (x_dataset y_dataset : List Arr) (Wt hail_ke : Arr)
    (min_range max_range : ℝ) (a r : ℕ) : Prop :=
  Wt a r > 0 ∧ hail_ke a r > 0 ∧
  ground_range x_dataset y_dataset a r > min_range * 1000 ∧
  ground_range x_dataset y_dataset a r < max_range * 1000

/-- One entry of the reflectivity_dataset list inside main().  After the
re-binding at line 77 each entry aliases one of the caller's arrays; the
C-band correction at line 114 re-binds an entry to a freshly allocated
array. -/
inductive ReflEntry : Type
  | callerAlias (j : ℕ)
  | fresh (a : Arr)

/-- Dereference an entry against the caller-owned arrays. -/
noncomputable def readEntry (caller : List Arr) : ReflEntry → Arr
  | ReflEntry.callerAlias j => caller.getD j arrZero
  | ReflEntry.fresh a => a

/-- Default entry for list lookups. -/
noncomputable def entryZero : ReflEntry := ReflEntry.fresh arrZero

/-- Insert index i into an index list that is already sorted by the keys. -/
noncomputable def argsortInsert (keys : List ℝ) (i : ℕ) : List ℕ → List ℕ
  | [] => [i]
  | j :: rest =>
      if keys.getD i 0 ≤ keys.getD j 0 then i :: j :: rest
      else j :: argsortInsert keys i rest

/-- Insertion sort of an index list by the keys. -/
noncomputable def argsortAux (keys : List ℝ) : List ℕ → List ℕ
  | [] => []
  | j :: rest => argsortInsert keys j (argsortAux keys rest)

/-- Line 76: `sort_idx = list(np.argsort(elevation_dataset))`.  np.argsort
returns a permutation of 0..n-1 ordering the keys ascending; we realize it
with an insertion sort.  (The source leaves the sort kind at numpy's
default; only the permutation/length behavior is relied on below.) -/
noncomputable def argsort (keys : List ℝ) : List ℕ :=
  argsortAux keys (List.range keys.length)

/-- The arguments of main() (lines 12-24).  reflectivity_dataset holds the
caller-owned per-sweep arrays; levels is Optional to model None. -/
structure MeshInput : Type where
  reflectivity_dataset : List Arr
  elevation_dataset : List ℝ
  azimuth_dataset : List (ℕ → ℝ)
  range_dataset : List (ℕ → ℝ)
  radar_altitude : ℝ
  levels : Option (List ℝ)
  radar_band : String
  min_range : ℝ
  max_range : ℝ
  mesh_method : String
  correct_cband_refl : Bool

/-- The sorted per-sweep data consumed by the loop at lines 98-152. -/
structure LoopCfg : Type where
  radar_band : String
  correct_cband_refl : Bool
  radar_altitude : ℝ
  elevation_sorted : List ℝ
  azimuth_sorted : List (ℕ → ℝ)
  range_sorted : List (ℕ → ℝ)

/-- Mutable state of the loop at lines 98-152: the caller-owned arrays, the
(possibly re-bound) reflectivity_dataset entries, and the accumulated
x/y/z datasets. -/
structure LoopState : Type where
  caller : List Arr
  entries : List ReflEntry
  xs : List Arr
  ys : List Arr
  zs : List Arr

/-- Lines 100-115 for sweep index i: build the grids, call the coordinate
transform, append x, y, z + radar_altitude, compute the (unused before the
failure) ground range, and apply the C-band correction, which re-binds
entry i to a newly allocated corrected array (line 114) without writing to
the caller's array. -/
noncomputable def sweepBody (atc : Atc) (cfg : LoopCfg) (st : LoopState) (i : ℕ) :
    LoopState :=
  let elevation_array : ℕ → ℝ := fun _ => cfg.elevation_sorted.getD i 0
  let range_grid : Arr := fun _ r => (cfg.range_sorted.getD i (fun _ => 0)) r
  let azimuth_grid : Arr := fun a _ => (cfg.azimuth_sorted.getD i (fun _ => 0)) a
  let elevation_grid : Arr := fun a _ => elevation_array a
  let xyz := atc range_grid azimuth_grid elevation_grid
  let st1 : LoopState :=
    { st with
      xs := st.xs ++ [xyz.1]
      ys := st.ys ++ [xyz.2.1]
      zs := st.zs ++ [fun a r => xyz.2.2 a r + cfg.radar_altitude] }
  let _gr : Arr := ground_range st1.xs st1.ys
  if cfg.radar_band = "C" ∧ cfg.correct_cband_refl = true then
    { st1 with
      entries := st1.entries.set i (ReflEntry.fresh (fun a r =>
        readEntry st1.caller (st1.entries.getD i entryZero) a r * 1.113 - 3.929)) }
  else st1

/-- The loop `for i in range(n_ppi)` of lines 98-152.  After the statements
of lines 100-115 (sweepBody), the first executed iteration evaluates
`dz = z[i + 1, :, :] - z[i, :, :]` (line 118; i = 0 on the first pass):
z is the 2-D array just returned for this sweep, so indexing it with three
subscripts raises IndexError and the loop aborts there, whatever the data. -/
noncomputable def sweepLoop (atc : Atc) (cfg : LoopCfg) (st : LoopState) :
    List ℕ → Except PyErr Unit × LoopState
  | [] => (Except.ok (), st)
  | i :: _ =>
      let st1 := sweepBody atc cfg st i
      (Except.error PyErr.dzIndexError, st1)

/-- Lines 76-80: the elevation list re-bound to its sorted order. -/
noncomputable def sortedElevations (inp : MeshInput) : List ℝ :=
  (argsort inp.elevation_dataset).map (fun j => inp.elevation_dataset.getD j 0)

/-- Line 81: `n_ppi = len(elevation_dataset)` (after the sort). -/
noncomputable def n_ppi (inp : MeshInput) : ℕ := (sortedElevations inp).length

/-- Lines 76-80: the sorted per-sweep data packaged for the loop. -/
noncomputable def loopCfg (inp : MeshInput) : LoopCfg :=
  { radar_band := inp.radar_band
    correct_cband_refl := inp.correct_cband_refl
    radar_altitude := inp.radar_altitude
    elevation_sorted := sortedElevations inp
    azimuth_sorted := (argsort inp.elevation_dataset).map
      (fun j => inp.azimuth_dataset.getD j (fun _ => 0))
    range_sorted := (argsort inp.elevation_dataset).map
      (fun j => inp.range_dataset.getD j (fun _ => 0)) }

/-- Line 77: `reflectivity_dataset = [reflectivity_dataset[i] for i in
sort_idx]` builds a new list whose entries alias the caller's arrays. -/
noncomputable def initState (inp : MeshInput) : LoopState :=
  { caller := inp.reflectivity_dataset
    entries := (argsort inp.elevation_dataset).map ReflEntry.callerAlias
    xs := []
    ys := []
    zs := [] }

/-- The observable outcome of a call to main(): the result (an exception or
the returned dictionaries, the latter modelled as Unit since no execution
path reaches line 259), together with the final contents of the
caller-owned reflectivity arrays. -/
structure MainRun : Type where
  result : Except PyErr Unit
  caller : List Arr

/-- The control flow of main() (lines 12-259):
  * line 60: radar_band must be in ["C", "S"], else ValueError;
  * line 63: levels must not be None, else ValueError;
  * lines 76-81: sort every per-sweep list by elevation;
  * line 84: at most 1 sweep raises Exception;
  * line 86: fewer than 10 sweeps executes `raise Warning(...)`, which
    aborts the call;
  * lines 98-152: the per-sweep loop (fails at the dz statement, see
    sweepLoop);
  * lines 158-184: were the loop to finish, the SHI integration header
    `for az_idx, az_value in range(azimuth_dataset[0])` would raise
    TypeError (range() of an ndarray); the MESH dispatch of lines 186-209
    and everything after it is unreachable. -/
noncomputable def embedMain (atc : Atc) (inp : MeshInput) : MainRun :=
  if ¬ (inp.radar_band ∈ (["C", "S"] : List String)) then
    { result := Except.error PyErr.bandValueError, caller := inp.reflectivity_dataset }
  else if inp.levels = none then
    { result := Except.error PyErr.levelsValueError, caller := inp.reflectivity_dataset }
  else if n_ppi inp ≤ 1 then
    { result := Except.error PyErr.tooFewSweepsError, caller := inp.reflectivity_dataset }
  else if n_ppi inp < 10 then
    { result := Except.error PyErr.warningRaised, caller := inp.reflectivity_dataset }
  else
    match sweepLoop atc (loopCfg inp) (initState inp) (List.range (n_ppi inp)) with
    | (Except.error e, stEnd) => { result := Except.error e, caller := stEnd.caller }
    | (Except.ok _, stEnd) =>
        { result := Except.error PyErr.integrationTypeError, caller := stEnd.caller }

/-- A concrete pure coordinate transform used for the concrete runs. -/
def atcId : Atc := fun range_grid azimuth_grid elevation_grid =>
  (range_grid, azimuth_grid, elevation_grid)

/-- Ten distinct elevation angles. -/
noncomputable def elev10 : List ℝ := [0, 1, 2, 3, 4, 5, 6, 7, 8, 9]

/-- A well-formed 10-sweep S-band input. -/
noncomputable def inp10S : MeshInput :=
  { reflectivity_dataset := List.replicate 10 (fun _ _ => (55 : ℝ))
    elevation_dataset := elev10
    azimuth_dataset := List.replicate 10 (fun a => (a : ℝ))
    range_dataset := List.replicate 10 (fun r => (r : ℝ) * 1000)
    radar_altitude := 0
    levels := some [3000, 5000]
    radar_band := "S"
    min_range := 10
    max_range := 150
    mesh_method := "mh2019_75"
    correct_cband_refl := true }

/-- A well-formed 2-sweep S-band input. -/
noncomputable def inp2S : MeshInput :=
  { reflectivity_dataset := [fun _ _ => (55 : ℝ), fun _ _ => (55 : ℝ)]
    elevation_dataset := [0.5, 1.5]
    azimuth_dataset := [fun a => (a : ℝ), fun a => (a : ℝ)]
    range_dataset := [fun r => (r : ℝ) * 1000, fun r => (r : ℝ) * 1000]
    radar_altitude := 0
    levels := some [3000, 5000]
    radar_band := "S"
    min_range := 10
    max_range := 150
    mesh_method := "mh2019_75"
    correct_cband_refl := true }

/-- A 10-sweep input, well-formed except for an unrecognized mesh_method. -/
noncomputable def inpBadMethod : MeshInput :=
  { inp10S with mesh_method := "bogus" }

/-- A well-formed 10-sweep C-band input with the correction enabled. -/
noncomputable def inp10C : MeshInput :=
  { reflectivity_dataset := List.replicate 10 (fun _ _ => (48 : ℝ))
    elevation_dataset := [0.5, 0.9, 1.3, 1.8, 2.4, 3.1, 4.2, 5.6, 7.4, 10]
    azimuth_dataset := List.replicate 10 (fun a => (a : ℝ) * 90)
    range_dataset := List.replicate 10 (fun r => (r : ℝ) * 250)
    radar_altitude := 150
    levels := some [4200, 6800]
    radar_band := "C"
    min_range := 10
    max_range := 150
    mesh_method := "witt1998"
    correct_cband_refl := true }

/-- A 2-sweep S-band input whose first reflectivity array holds 150 dB at
cell (0,0), above the clipping bound of line 131. -/
noncomputable def inpClip : MeshInput :=
  { reflectivity_dataset := [fun _ _ => (150 : ℝ), fun _ _ => (20 : ℝ)]
    elevation_dataset := [0.5, 1.5]
    azimuth_dataset := [fun a => (a : ℝ), fun a => (a : ℝ)]
    range_dataset := [fun r => (r : ℝ) * 1000, fun r => (r : ℝ) * 1000]
    radar_altitude := 0
    levels := some [3000, 5000]
    radar_band := "S"
    min_range := 10
    max_range := 150
    mesh_method := "mh2019_75"
    correct_cband_refl := false }

/-! Helper lemmas about the embedded pipeline (shared by several claims). -/

theorem argsortInsert_length (keys : List ℝ) (i : ℕ) (l : List ℕ) :
    (argsortInsert keys i l).length = l.length + 1 := by
  induction l with
  | nil => rfl
  | cons j rest ih =>
      unfold argsortInsert
      split
      · simp
      · simp [ih]

theorem argsortAux_length (keys : List ℝ) (l : List ℕ) :
    (argsortAux keys l).length = l.length := by
  induction l with
  | nil => rfl
  | cons j rest ih =>
      unfold argsortAux
      rw [argsortInsert_length, ih, List.length_cons]

theorem argsort_length (keys : List ℝ) : (argsort keys).length = keys.length := by
  unfold argsort
  rw [argsortAux_length, List.length_range]

theorem n_ppi_eq (inp : MeshInput) : n_ppi inp = inp.elevation_dataset.length := by
  unfold n_ppi sortedElevations
  rw [List.length_map, argsort_length]

theorem sweepBody_caller (atc : Atc) (cfg : LoopCfg) (st : LoopState) (i : ℕ) :
    (sweepBody atc cfg st i).caller = st.caller := by
  unfold sweepBody
  dsimp only
  split <;> rfl

theorem sweepLoop_cons (atc : Atc) (cfg : LoopCfg) (st : LoopState) (i : ℕ)
    (rest : List ℕ) :
    sweepLoop atc cfg st (i :: rest) =
      (Except.error PyErr.dzIndexError, sweepBody atc cfg st i) := rfl

theorem sweepLoop_caller (atc : Atc) (cfg : LoopCfg) (st : LoopState) (l : List ℕ) :
    (sweepLoop atc cfg st l).2.caller = st.caller := by
  cases l with
  | nil => rfl
  | cons i rest => rw [sweepLoop_cons, sweepBody_caller]

theorem embedMain_caller (atc : Atc) (inp : MeshInput) :
    (embedMain atc inp).caller = inp.reflectivity_dataset := by
  unfold embedMain
  by_cases hb : ¬ (inp.radar_band ∈ (["C", "S"] : List String))
  · rw [if_pos hb]
  · rw [if_neg hb]
    by_cases hl : inp.levels = none
    · rw [if_pos hl]
    · rw [if_neg hl]
      by_cases h1 : n_ppi inp ≤ 1
      · rw [if_pos h1]
      · rw [if_neg h1]
        by_cases h10 : n_ppi inp < 10
        · rw [if_pos h10]
        · rw [if_neg h10]
          rcases h : sweepLoop atc (loopCfg inp) (initState inp)
              (List.range (n_ppi inp)) with ⟨res, stEnd⟩
          have hc : stEnd.caller = inp.reflectivity_dataset := by
            have h2 := sweepLoop_caller atc (loopCfg inp) (initState inp)
              (List.range (n_ppi inp))
            rw [h] at h2
            exact h2
          cases res <;> exact hc

theorem embedMain_error_cases (atc : Atc) (inp : MeshInput) :
    (embedMain atc inp).result = Except.error PyErr.bandValueError ∨
    (embedMain atc inp).result = Except.error PyErr.levelsValueError ∨
    (embedMain atc inp).result = Except.error PyErr.tooFewSweepsError ∨
    (embedMain atc inp).result = Except.error PyErr.warningRaised ∨
    (embedMain atc inp).result = Except.error PyErr.dzIndexError := by
  unfold embedMain
  by_cases hb : ¬ (inp.radar_band ∈ (["C", "S"] : List String))
  · rw [if_pos hb]
    exact Or.inl rfl
  · rw [if_neg hb]
    by_cases hl : inp.levels = none
    · rw [if_pos hl]
      exact Or.inr (Or.inl rfl)
    · rw [if_neg hl]
      by_cases h1 : n_ppi inp ≤ 1
      · rw [if_pos h1]
        exact Or.inr (Or.inr (Or.inl rfl))
      · rw [if_neg h1]
        by_cases h10 : n_ppi inp < 10
        · rw [if_pos h10]
          exact Or.inr (Or.inr (Or.inr (Or.inl rfl)))
        · rw [if_neg h10]
          refine Or.inr (Or.inr (Or.inr (Or.inr ?_)))
          obtain ⟨k, hk⟩ : ∃ k, n_ppi inp = k + 1 :=
            Nat.exists_eq_succ_of_ne_zero (by omega)
          rw [hk, List.range_succ_eq_map, sweepLoop_cons]

theorem embedMain_warning (atc : Atc) (inp : MeshInput)
    (hband : inp.radar_band ∈ (["C", "S"] : List String))
    (hlev : inp.levels ≠ none)
    (h2 : 2 ≤ inp.elevation_dataset.length)
    (h10 : inp.elevation_dataset.length < 10) :
    (embedMain atc inp).result = Except.error PyErr.warningRaised := by
  have hn := n_ppi_eq inp
  unfold embedMain
  rw [if_neg (not_not_intro hband), if_neg hlev, if_neg (by omega), if_pos (by omega)]

theorem embedMain_dz (atc : Atc) (inp : MeshInput)
    (hband : inp.radar_band ∈ (["C", "S"] : List String))
    (hlev : inp.levels ≠ none)
    (h10 : 10 ≤ inp.elevation_dataset.length) :
    (embedMain atc inp).result = Except.error PyErr.dzIndexError := by
  have hn := n_ppi_eq inp
  unfold embedMain
  rw [if_neg (not_not_intro hband), if_neg hlev, if_neg (by omega), if_neg (by omega)]
  obtain ⟨k, hk⟩ : ∃ k, n_ppi inp = k + 1 :=
    Nat.exists_eq_succ_of_ne_zero (by omega)
  rw [hk, List.range_succ_eq_map, sweepLoop_cons]

theorem getD_zero_set_succ {α : Type} (l : List α) (i : ℕ) (u d : α) :
    (l.set (i + 1) u).getD 0 d = l.getD 0 d := by
  cases l with
  | nil => rfl
  | cons x xs => rfl

theorem rpow_hundred_half : (100 : ℝ) ^ (0.5 : ℝ) = 10 := by
  have h1 : (100 : ℝ) = (10 : ℝ) ^ (2 : ℝ) := by
    rw [show (2 : ℝ) = ((2 : ℕ) : ℝ) by norm_num, Real.rpow_natCast]
    norm_num
  rw [h1, ← Real.rpow_mul (by norm_num : (0 : ℝ) ≤ 10),
    show (2 : ℝ) * 0.5 = 1 by norm_num, Real.rpow_one]

theorem embedMain_levels_swap (atc : Atc) (inp : MeshInput) (l1 l2 : List ℝ) :
    embedMain atc { inp with levels := some l1 } =
      embedMain atc { inp with levels := some l2 } := by
  rcases inp with ⟨rd, ed, ad, rgd, alt, lv, band, mn, mx, mm, cc⟩
  unfold embedMain
  rw [if_neg (fun h => Option.noConfusion h : ¬ (some l1 = none)),
    if_neg (fun h => Option.noConfusion h : ¬ (some l2 = none))]
  rfl

/-! Claim theorems. -/

/-- Claim C1: the spec states that after the column integration visits all
sweeps, each lowest-sweep SHI cell whose accumulated sum is strictly
positive equals 0.1 times that sum, and is NaN otherwise.  The code never
performs that integration: on this well-formed 10-sweep input the call
aborts inside the per-sweep loop with the IndexError of the dz statement
(line 118), before lines 154-184 are reached.  (Those lines themselves
would raise TypeError at line 159, read the leaked loop variable
SHI_elements at line 164, and assign `0.1 * shi`, the whole grid, instead
of `0.1 * shi_value` at line 184.) -/
theorem C1_shi_integration_unreachable :
    (embedMain atcId inp10S).result = Except.error PyErr.dzIndexError := by
  apply embedMain_dz
  · exact List.Mem.tail _ (List.Mem.head _)
  · exact fun h => Option.noConfusion h
  · exact le_refl 10

/-- Claim C2: the spec states that with at least 2 but fewer than 10 sweeps
the call emits a non-fatal advisory and runs to completion.  The code
instead executes `raise Warning(...)` (line 87), which aborts the call: on
this well-formed 2-sweep input the embedded main terminates with that
raised Warning and returns no output fields. -/
theorem C2_few_sweeps_raise_aborts :
    (embedMain atcId inp2S).result = Except.error PyErr.warningRaised := by
  apply embedMain_warning
  · exact List.Mem.tail _ (List.Mem.head _)
  · exact fun h => Option.noConfusion h
  · exact le_refl 2
  · exact Nat.lt_of_sub_eq_succ rfl

/-- Claim C3 counterexample: the claim states that an unrecognized
mesh_method fails the call with an invalid-argument error before any
numeric work.  On this concrete input (10 well-formed sweeps,
mesh_method "bogus") the call fails inside the numeric per-sweep loop
with the dz IndexError, not with the mesh-method ValueError. -/
theorem C3_cx_bad_method_fails_in_numeric_work :
    (embedMain atcId inpBadMethod).result = Except.error PyErr.dzIndexError ∧
    PyErr.dzIndexError ≠ PyErr.meshMethodValueError := by
  constructor
  · apply embedMain_dz
    · exact List.Mem.tail _ (List.Mem.head _)
    · exact fun h => Option.noConfusion h
    · exact le_refl 10
  · exact fun h => PyErr.noConfusion h

/-- Claim C3 amended: the mesh_method dispatch (lines 186-209) is placed
after the reprojection/preprocessing loop and the SHI integration, so an
unrecognized mesh_method is never rejected before numeric work; in the
current code it is never rejected at all: every call fails earlier (band
or levels validation, the sweep-count check, the raised Warning, or the
dz IndexError inside the numeric loop). -/
theorem C3_amended_mesh_method_never_rejected_first :
    ∀ (atc : Atc) (inp : MeshInput), ∃ e : PyErr,
      (embedMain atc inp).result = Except.error e ∧
      e ≠ PyErr.meshMethodValueError := by
  intro atc inp
  rcases embedMain_error_cases atc inp with h | h | h | h | h <;>
    exact ⟨_, h, fun hc => PyErr.noConfusion hc⟩

/-- Claim C4: the spec states dz is the forward/backward/centered difference
of adjacent sweeps' height fields.  The code instead indexes the current
sweep's own 2-D z array with three subscripts (z[i + 1, :, :] etc., lines
118/120/122), an IndexError: on this well-formed 10-sweep C-band input the
call aborts there (the intended arrays would have been the entries of
z_dataset). -/
theorem C4_dz_statement_raises_indexerror :
    (embedMain atcId inp10C).result = Except.error PyErr.dzIndexError := by
  apply embedMain_dz
  · exact List.Mem.head _
  · exact fun h => Option.noConfusion h
  · exact le_refl 10

/-- Claim C6: for a two-element level list the melt layer is min(levels) and
the neg-20 layer max(levels) (lines 72-73), independent of element order;
consequently the temperature weight, the POSH threshold path and the whole
call are unchanged when the levels [a, b] are supplied as [b, a]. -/
theorem C6_levels_order_invariance :
    ∀ (a b : ℝ) (atc : Atc) (inp : MeshInput),
      meltlayerOf [a, b] = min a b ∧
      neg20layerOf [a, b] = max a b ∧
      meltlayerOf [b, a] = meltlayerOf [a, b] ∧
      neg20layerOf [b, a] = neg20layerOf [a, b] ∧
      (∀ zv : ℝ, WtOf [b, a] zv = WtOf [a, b] zv) ∧
      (∀ shi : ℝ, poshFromLevels [b, a] shi = poshFromLevels [a, b] shi) ∧
      embedMain atc { inp with levels := some [b, a] } =
        embedMain atc { inp with levels := some [a, b] } := by
  intro a b atc inp
  have hmin : ∀ u v : ℝ, meltlayerOf [u, v] = min u v := by
    intro u v
    simp [meltlayerOf, npMin]
  have hmax : ∀ u v : ℝ, neg20layerOf [u, v] = max u v := by
    intro u v
    simp [neg20layerOf, npMax]
  have hmelt : meltlayerOf [b, a] = meltlayerOf [a, b] := by
    rw [hmin, hmin, min_comm]
  have hneg : neg20layerOf [b, a] = neg20layerOf [a, b] := by
    rw [hmax, hmax, max_comm]
  refine ⟨hmin a b, hmax a b, hmelt, hneg, ?_, ?_, ?_⟩
  · intro zv
    unfold WtOf
    rw [hmelt, hneg]
  · intro shi
    unfold poshFromLevels
    rw [hmelt]
  · exact embedMain_levels_swap atc inp [b, a] [a, b]

/-- Claim C7: the MESH dispatch computes the literal method-specific power
laws of lines 190/197/203 (2.54 shi^0.5, 15.096 shi^0.206,
22.157 shi^0.212); SHI = 100 under witt1998 gives exactly 25.4 mm; and
each law is strictly increasing on nonnegative SHI. -/
theorem C7_mesh_power_laws :
    (∀ shi : ℝ,
      mesh_formula "witt1998" shi = some (2.54 * shi ^ (0.5 : ℝ)) ∧
      mesh_formula "mh2019_75" shi = some (15.096 * shi ^ (0.206 : ℝ)) ∧
      mesh_formula "mh2019_95" shi = some (22.157 * shi ^ (0.212 : ℝ))) ∧
    mesh_formula "witt1998" 100 = some 25.4 ∧
    (∀ x y : ℝ, 0 ≤ x → x < y →
      mesh_witt1998 x < mesh_witt1998 y ∧
      mesh_mh2019_75 x < mesh_mh2019_75 y ∧
      mesh_mh2019_95 x < mesh_mh2019_95 y) := by
  refine ⟨fun shi => ⟨rfl, rfl, rfl⟩, ?_, ?_⟩
  · have h : mesh_witt1998 100 = 25.4 := by
      unfold mesh_witt1998
      rw [rpow_hundred_half]
      norm_num
    calc mesh_formula "witt1998" 100 = some (mesh_witt1998 100) := rfl
      _ = some 25.4 := by rw [h]
  · intro x y hx hxy
    have h5 : x ^ (0.5 : ℝ) < y ^ (0.5 : ℝ) :=
      Real.rpow_lt_rpow hx hxy (by norm_num)
    have h206 : x ^ (0.206 : ℝ) < y ^ (0.206 : ℝ) :=
      Real.rpow_lt_rpow hx hxy (by norm_num)
    have h212 : x ^ (0.212 : ℝ) < y ^ (0.212 : ℝ) :=
      Real.rpow_lt_rpow hx hxy (by norm_num)
    unfold mesh_witt1998 mesh_mh2019_75 mesh_mh2019_95
    exact ⟨mul_lt_mul_of_pos_left h5 (by norm_num),
      mul_lt_mul_of_pos_left h206 (by norm_num),
      mul_lt_mul_of_pos_left h212 (by norm_num)⟩

/-- Witness for claim C7: the strict-monotonicity part applied at the
concrete pair 1 < 4 for the witt1998 law. -/
theorem C7_mesh_power_laws_witness :
    (0 : ℝ) ≤ 1 ∧ (1 : ℝ) < 4 ∧ mesh_witt1998 1 < mesh_witt1998 4 :=
  ⟨by norm_num, by norm_num,
    (C7_mesh_power_laws.2.2 1 4 (by norm_num) (by norm_num)).1⟩

/-- Claim C8: POSH is 29·log(SHI/WT) + 50 with WT = 57.5·(melt km) − 121
(line 212), computed through the never-raising safe-log collaborator with
the imaginary part discarded, then clipped; the result lies in [0, 100]
for every SHI/WT combination, including SHI = 0 and negative WT. -/
theorem C8_posh_bounded :
    ∀ shi meltlayer : ℝ,
      warning_threshold meltlayer = 57.5 * (meltlayer / 1000) - 121 ∧
      0 ≤ poshOf shi meltlayer ∧ poshOf shi meltlayer ≤ 100 := by
  intro shi melt
  refine ⟨rfl, ?_⟩
  unfold poshOf
  dsimp only
  split_ifs <;> constructor <;> linarith

/-- Claim C9: for every sweep (not just the lowest) the validity mask holds
at a cell exactly when the temperature weight and kinetic energy are
positive and the ground range — always taken from the lowest sweep's x, y
arrays (index 0 at line 111) — lies strictly between min_range·1000 and
max_range·1000; replacing any non-lowest sweep's coordinate arrays leaves
the mask unchanged. -/
theorem C9_validity_mask_uses_lowest_sweep :
    ∀ (x_dataset y_dataset : List Arr) (Wt hail_ke : Arr)
      (min_range max_range : ℝ) (a r i : ℕ) (u v : Arr),
      (validOf x_dataset y_dataset Wt hail_ke min_range max_range a r ↔
        (Wt a r > 0 ∧ hail_ke a r > 0 ∧
         min_range * 1000 <
           Real.sqrt ((x_dataset.getD 0 arrZero a r) ^ 2 +
             (y_dataset.getD 0 arrZero a r) ^ 2) ∧
         Real.sqrt ((x_dataset.getD 0 arrZero a r) ^ 2 +
             (y_dataset.getD 0 arrZero a r) ^ 2) < max_range * 1000)) ∧
      (validOf (x_dataset.set (i + 1) u) (y_dataset.set (i + 1) v) Wt hail_ke
          min_range max_range a r ↔
        validOf x_dataset y_dataset Wt hail_ke min_range max_range a r) := by
  intro xs ys Wt ke mn mx a r i u v
  constructor
  · exact Iff.rfl
  · unfold validOf ground_range
    rw [getD_zero_set_succ, getD_zero_set_succ]

/-- Claim C10 counterexample: the claim states that when the C-band
correction branch is not taken, the [−100, 100] clipping (lines 131-132)
writes into the caller's reflectivity arrays in place.  On this concrete
S-band input whose first array holds 150 dB at cell (0,0), the caller's
array still holds 150 (not the clipped 100) after the call: the clipping
statements are never executed, because every iteration fails at the dz
statement (line 118) first. -/
theorem C10_cx_no_inplace_clipping :
    (embedMain atcId inpClip).caller.getD 0 arrZero 0 0 = 150 ∧
    (150 : ℝ) ≠ 100 := by
  constructor
  · rw [embedMain_caller]
    rfl
  · norm_num

/-- Claim C10 amended: the C-band correction re-binds list entries to newly
allocated arrays (line 114) and never writes to the caller's arrays, and
the in-place clipping of lines 131-132 is unreachable (the loop fails at
the dz statement of line 118 first), so the caller's reflectivity arrays
are never mutated on any input, whichever branch is configured. -/
theorem C10_caller_reflectivity_never_mutated :
    ∀ (atc : Atc) (inp : MeshInput),
      (embedMain atc inp).caller = inp.reflectivity_dataset := by
  intro atc inp
  exact embedMain_caller atc inp
